import Mathlib

/-!
Shallow embedding of the HedgeDoc realtime-editor gateway core:
the WebSocket message multiplexer (`YjsAdapter.bindMessageHandlers`),
the connection gateway (`RealtimeEditorGateway.handleConnection` /
`handleDisconnect` / `handleMessageSync`), and the note lookup
(`NotesService.getNoteByIdOrAlias` / `checkNoteIdOrAlias`).

External collaborators (TypeORM repositories, UsersService,
PermissionsService) are modelled at their boundary as fields of an
environment record, exactly as the gateway consumes them.  Observable
effects (closing the connection, registry mutation, log lines, frames
sent) are made explicit as fields of outcome records.
-/

namespace HedgeDoc

/-- Opaque per-connection identity of a WebSocket client; the source keys
maps by object reference identity, modelled here as a number. -/
abbrev Client := Nat

/-- The slice of the `User` entity the gateway observes (`user.userName`). -/
structure User where
  userName : String
deriving DecidableEq, Repr

/-- The slice of the `Note` entity the gateway observes (`note.id`, used as
the registry key and in logging). -/
structure Note where
  id : String
deriving DecidableEq, Repr

/-- Errors thrown by `NotesService.getNoteByIdOrAlias` /
`checkNoteIdOrAlias` (from `errors/errors`). -/
inductive NoteError where
  /-- `NotInDBError`: no note with this id or alias exists. -/
  | notInDB (noteIdOrAlias : String)
  /-- `ForbiddenIdError`: the id or alias is forbidden by the administrator. -/
  | forbiddenId (noteIdOrAlias : String)
deriving DecidableEq, Repr

/-- External collaborators consumed by the gateway, passed explicitly.
`getUserByUsername` is the UsersService lookup; `findNote` abstracts the
TypeORM query of `getNoteByIdOrAlias` (match on `note.publicId` or an
alias name); `forbiddenNoteIds` is `appConfig.forbiddenNoteIds`;
`mayRead` is `PermissionsService.mayRead`. -/
structure GatewayEnv where
  getUserByUsername : String → User
  findNote : String → Option Note
  forbiddenNoteIds : List String
  mayRead : User → Note → Bool

/-- `NotesService.checkNoteIdOrAlias`: throws `ForbiddenIdError` when the
id or alias is in `appConfig.forbiddenNoteIds`, otherwise returns. -/
def checkNoteIdOrAlias (env : GatewayEnv) (noteIdOrAlias : String) :
    Except NoteError Unit :=
  if env.forbiddenNoteIds.contains noteIdOrAlias then
    Except.error (NoteError.forbiddenId noteIdOrAlias)
  else
    Except.ok ()

/-- `NotesService.getNoteByIdOrAlias`: first `checkNoteIdOrAlias`, then the
repository query; throws `NotInDBError` when the query finds nothing. -/
def getNoteByIdOrAlias (env : GatewayEnv) (noteIdOrAlias : String) :
    Except NoteError Note :=
  match checkNoteIdOrAlias env noteIdOrAlias with
  | Except.error e => Except.error e
  | Except.ok _ =>
    match env.findNote noteIdOrAlias with
    | none => Except.error (NoteError.notInDB noteIdOrAlias)
    | some note => Except.ok note

/-- Modelled from the spec: the `NoteClientMap` class
(`realtime/note-client-map`, imported by the gateway but not among the
provided source files) is the Session Registry of spec section 4.2: a
mapping from live WebSocket clients to the note id they are attached to,
here an association list keyed by client identity. -/
structure NoteClientMap where
  entries : List (Client × String)
deriving DecidableEq, Repr

/-- Modelled from the spec: registers a client under a note id
(spec section 4.2 `attach`). -/
def NoteClientMap.addClient (m : NoteClientMap) (client : Client)
    (noteId : String) : NoteClientMap :=
  ⟨(client, noteId) :: m.entries⟩

/-- Modelled from the spec: the note id a client is attached to, if any
(undefined for a client that was never registered). -/
def NoteClientMap.getNoteIdByClient (m : NoteClientMap) (client : Client) :
    Option String :=
  (m.entries.find? (fun p => p.1 == client)).map (fun p => p.2)

/-- Modelled from the spec: removes every entry of the given client
(spec section 4.2 `detach`). -/
def NoteClientMap.removeClient (m : NoteClientMap) (client : Client) :
    NoteClientMap :=
  ⟨m.entries.filter (fun p => !(p.1 == client))⟩

/-- JS `'\n'`, `'\r'`, `'\u2028'`, `'\u2029'`: the characters the regexp
metacharacter `.` does not match (no `s` flag on the source pattern). -/
def isLineTerminator (c : Char) : Bool :=
  c = '\n' || c = '\r' || c = '\u2028' || c = '\u2029'

/-- Denotation of `/^\/realtime\/(.+)$/.exec(url)` from
`RealtimeEditorGateway.handleConnection`: the url matches exactly when it
starts with the 10 characters `/realtime/` and the (non-empty) remainder
contains no line terminator (JS `.` excludes them and `$` without the `m`
flag anchors at end of input); the first capture group is that remainder. -/
def realtimePathMatch (url : String) : Option String :=
  let cs := url.data
  let pat := "/realtime/".data
  if cs.take 10 = pat ∧ cs.drop 10 ≠ [] ∧
      (cs.drop 10).all (fun c => !(isLineTerminator c)) then
    some (String.mk (cs.drop 10))
  else
    none

/-- Observable result of `handleConnection`: whether `client.close()` was
called, the note-client registry afterwards, which usernames were looked
up, which note locators were passed to `getNoteByIdOrAlias`, the user
handed to `mayRead` (if it was called), and any protocol frames sent to
the client (the source sends none; the TODO comments about sending an
error message are unimplemented). -/
structure ConnOutcome where
  closed : Bool
  map : NoteClientMap
  userLookups : List String
  noteLookups : List String
  authzUser : Option User
  sentFrames : List (List Nat)
deriving DecidableEq, Repr

/-- `RealtimeEditorGateway.handleConnection`: path check against
`/^\/realtime\/(.+)$/` (close on failure), user lookup with the fixed
username `'hardcoded'` (the `TODO Use actual user here` is unimplemented),
note lookup (close on any thrown error), `mayRead` authorization check
(close on denial), and finally `noteClientMap.addClient(client, note.id)`. -/
def handleConnection (env : GatewayEnv) (st : NoteClientMap)
    (client : Client) (url : String) : ConnOutcome :=
  match realtimePathMatch url with
  | none => ⟨true, st, [], [], none, []⟩
  | some noteIdFromPath =>
    let user := env.getUserByUsername "hardcoded"
    match getNoteByIdOrAlias env noteIdFromPath with
    | Except.error _ => ⟨true, st, ["hardcoded"], [noteIdFromPath], none, []⟩
    | Except.ok note =>
      if env.mayRead user note then
        ⟨false, st.addClient client note.id, ["hardcoded"], [noteIdFromPath],
          some user, []⟩
      else
        ⟨true, st, ["hardcoded"], [noteIdFromPath], some user, []⟩

/-- Observable result of `handleDisconnect`: the registry afterwards, the
`(noteId, content)` pairs flushed to storage, and the document sessions
evicted.  The source performs neither flush nor eviction (the
`TODO If this client was the last one participating on a note, close the
YDoc of the note and store it to the db` is unimplemented), so the last
two fields are built empty on every path. -/
structure DisconnectOutcome where
  map : NoteClientMap
  storageSaves : List (String × String)
  evictedSessions : List String
deriving DecidableEq, Repr

/-- `RealtimeEditorGateway.handleDisconnect`: looks the client up in the
note-client map; returns immediately when it is absent, otherwise removes
it.  No flush to storage and no session eviction happen (TODO in source). -/
def handleDisconnect (st : NoteClientMap) (client : Client) :
    DisconnectOutcome :=
  match st.getNoteIdByClient client with
  | none => ⟨st, [], []⟩
  | some _ => ⟨st.removeClient client, [], []⟩

/-- Observable result of a SYNC/AWARENESS/HEDGEDOC message handler: log
lines written, the optional binary response to the sender, the updates
broadcast to other clients, and whether an update was merged into a
document replica. -/
structure SyncOutcome where
  logs : List String
  response : Option (List Nat)
  broadcasts : List (Client × List Nat)
  mergedUpdate : Bool
deriving DecidableEq, Repr

/-- `RealtimeEditorGateway.handleMessageSync`: logs
`'Received SYNC message'` and resolves with no response.  It performs no
merge into any replica and broadcasts nothing to any connection. -/
def handleMessageSync (client : Client) (data : List Nat) : SyncOutcome :=
  ⟨["Received SYNC message"], none, [], false⟩

/-- A registered message handler of `YjsAdapter.bindMessageHandlers`: its
`message` name and its callback, which returns a promise; a rejected
promise is modelled as `Except.error` carrying the error. -/
structure MessageHandler where
  message : String
  callback : List Nat → Except String Unit

/-- The `messageTypeMap` object literal of `bindMessageHandlers`:
`{0: 'messageSync', 1: 'messageAwareness', 100: 'messageHedgeDoc'}`;
indexing with any other key yields `undefined`, here `none`. -/
def messageTypeMap (n : Nat) : Option String :=
  if n = 0 then some "messageSync"
  else if n = 1 then some "messageAwareness"
  else if n = 100 then some "messageHedgeDoc"
  else none

/-- Models `lib0` `decoding.readVarUint` (external library): reads one
unsigned variable-length integer from the front of the byte list, 7 data
bits per byte, least-significant group first, high bit set on every byte
but the last; fails (`none`, an exception in the library) when the bytes
run out before a terminating byte. Returns the value and the remaining
bytes. -/
def readVarUintAux : List Nat → Nat → Nat → Option (Nat × List Nat)
  | [], _, _ => none
  | b :: rest, shiftBits, acc =>
    if b < 128 then
      some (acc + b * 2 ^ shiftBits, rest)
    else
      readVarUintAux rest (shiftBits + 7) (acc + b % 128 * 2 ^ shiftBits)

/-- Entry point of the varint decoder at position 0. -/
def readVarUint (data : List Nat) : Option (Nat × List Nat) :=
  readVarUintAux data 0 0

/-- Observable result of dispatching one frame in
`YjsAdapter.bindMessageHandlers`: which handler's callback ran (by its
`message` name), whether the connection was closed (the dispatcher never
closes it), the callback rejection swallowed by the trailing
`.catch((error) => {})` (its body is empty), and the log lines the
dispatcher itself wrote. -/
structure DispatchOutcome where
  handled : Option String
  closed : Bool
  caughtError : Option String
  logs : List String
deriving DecidableEq, Repr

/-- The per-frame `'message'` listener of `YjsAdapter.bindMessageHandlers`:
reads the leading varint as the message type (a truncated varint throws
out of the listener, modelled as `Except.error`), looks the mapped name up
in the handler list (`handlers.find`), logs
`'Some message handlers were not defined!'` and returns when no handler
matches, and otherwise invokes the handler's callback on the whole frame,
attaching a `.catch` whose body is empty, so a rejection is swallowed
without logging. -/
def dispatchFrame (handlers : List MessageHandler) (data : List Nat) :
    Except String DispatchOutcome :=
  match readVarUint data with
  | none => Except.error "unexpected end of array"
  | some (messageType, _) =>
    match handlers.find? (fun h => messageTypeMap messageType == some h.message) with
    | none =>
      Except.ok ⟨none, false, none, ["Some message handlers were not defined!"]⟩
    | some h =>
      match h.callback data with
      | Except.ok _ => Except.ok ⟨some h.message, false, none, []⟩
      | Except.error e => Except.ok ⟨some h.message, false, some e, []⟩

/-- The three handlers the `RealtimeEditorGateway` registers via
`@SubscribeMessage('messageSync' | 'messageAwareness' |
'messageHedgeDoc')`; each stub handler only logs and resolves, so its
callback always succeeds. -/
def gatewayHandlers : List MessageHandler :=
  [⟨"messageSync", fun _ => Except.ok ()⟩,
   ⟨"messageAwareness", fun _ => Except.ok ()⟩,
   ⟨"messageHedgeDoc", fun _ => Except.ok ()⟩]

/-! Concrete collaborator instances used to exercise the theorems on
closed inputs. -/

/-- The user the `'hardcoded'` lookup resolves to. -/
def userHardcoded : User := ⟨"hardcoded"⟩

/-- A note whose internal id differs from its locator alias `abc`. -/
def noteAbc : Note := ⟨"noteAbcId"⟩

/-- Collaborators where locator `abc` resolves to `noteAbc`, the id
`evil` is administratively forbidden, and `mayRead` always grants. -/
def envGrantAbc : GatewayEnv :=
  ⟨fun _ => userHardcoded,
   fun s => if s = "abc" then some noteAbc else none,
   ["evil"],
   fun _ _ => true⟩

/-- Same collaborators as `envGrantAbc` but `mayRead` always denies. -/
def envDenyAbc : GatewayEnv :=
  ⟨fun _ => userHardcoded,
   fun s => if s = "abc" then some noteAbc else none,
   ["evil"],
   fun _ _ => false⟩

/-- The empty note-client registry. -/
def emptyMap : NoteClientMap := ⟨[]⟩

/-- A single registered handler whose callback always rejects, to observe
the dispatcher's `.catch` behaviour. -/
def failingSyncHandlers : List MessageHandler :=
  [⟨"messageSync", fun _ => Except.error "boom"⟩]

/-! Claim theorems. -/

/-- C1: `handleMessageSync` only logs `'Received SYNC message'` and
resolves: for every SYNC frame from every client it merges no update into
any replica and broadcasts nothing to any connection, contradicting the
claim that a received update is merged and then broadcast to every other
connection of the document. -/
theorem sync_message_no_merge_no_broadcast (client : Client) (data : List Nat) :
    handleMessageSync client data = ⟨["Received SYNC message"], none, [], false⟩ := rfl

/-- C2: when the path matches, the note lookup succeeds and `mayRead`
denies, `handleConnection` closes the connection, leaves the note-client
registry unchanged (so the connection is registered only on a grant), and
sends no frame; no presence store exists in this code at all. -/
theorem authz_denied_closes_without_registration
    (env : GatewayEnv) (st : NoteClientMap) (client : Client) (url : String)
    (noteIdFromPath : String) (note : Note)
    (hpath : realtimePathMatch url = some noteIdFromPath)
    (hnote : getNoteByIdOrAlias env noteIdFromPath = Except.ok note)
    (hdeny : env.mayRead (env.getUserByUsername "hardcoded") note = false) :
    handleConnection env st client url =
      ⟨true, st, ["hardcoded"], [noteIdFromPath],
        some (env.getUserByUsername "hardcoded"), []⟩ := by
  simp [handleConnection, hpath, hnote, hdeny]

/-- C2 witness: a denying permission collaborator on the existing note
`abc` leaves the registry empty and closes the connection. -/
theorem authz_denied_closes_without_registration_witness :
    handleConnection envDenyAbc emptyMap 1 "/realtime/abc" =
      ⟨true, emptyMap, ["hardcoded"], ["abc"], some userHardcoded, []⟩ :=
  authz_denied_closes_without_registration envDenyAbc emptyMap 1
    "/realtime/abc" "abc" noteAbc (by decide) rfl rfl

/-- C3: the source's `handleDisconnect` only removes the map entry: on the
disconnect of the last (sole) client of note `abc` it flushes nothing to
storage and evicts no session (the flush-then-evict is an unimplemented
TODO in the source), contrary to the claim. -/
theorem last_disconnect_no_flush_no_evict :
    handleDisconnect ⟨[(1, "abc")]⟩ 1 = ⟨⟨[]⟩, [], []⟩ := by decide

/-- C4: the leading varint selects the handler: 0 dispatches to
`messageSync`, 1 to `messageAwareness`, 100 to `messageHedgeDoc`; any
other value invokes no handler and never closes the connection (the
dispatcher only logs that a handler was missing). -/
theorem frame_category_dispatch
    (data : List Nat) (v : Nat) (rest : List Nat)
    (hdec : readVarUint data = some (v, rest)) :
    (v = 0 → dispatchFrame gatewayHandlers data =
      Except.ok ⟨some "messageSync", false, none, []⟩)
    ∧ (v = 1 → dispatchFrame gatewayHandlers data =
      Except.ok ⟨some "messageAwareness", false, none, []⟩)
    ∧ (v = 100 → dispatchFrame gatewayHandlers data =
      Except.ok ⟨some "messageHedgeDoc", false, none, []⟩)
    ∧ (v ≠ 0 → v ≠ 1 → v ≠ 100 → dispatchFrame gatewayHandlers data =
      Except.ok ⟨none, false, none, ["Some message handlers were not defined!"]⟩) := by
  refine ⟨?_, ?_, ?_, ?_⟩
  · intro h; subst h
    unfold dispatchFrame; rw [hdec]; rfl
  · intro h; subst h
    unfold dispatchFrame; rw [hdec]; rfl
  · intro h; subst h
    unfold dispatchFrame; rw [hdec]; rfl
  · intro h0 h1 h100
    have hmap : messageTypeMap v = none := by
      simp [messageTypeMap, h0, h1, h100]
    unfold dispatchFrame; rw [hdec]
    simp only [hmap]
    rfl

/-- C4 witness: concrete one-byte frames exercising all four branches. -/
theorem frame_category_dispatch_witness :
    dispatchFrame gatewayHandlers [0] =
      Except.ok ⟨some "messageSync", false, none, []⟩
    ∧ dispatchFrame gatewayHandlers [1] =
      Except.ok ⟨some "messageAwareness", false, none, []⟩
    ∧ dispatchFrame gatewayHandlers [100] =
      Except.ok ⟨some "messageHedgeDoc", false, none, []⟩
    ∧ dispatchFrame gatewayHandlers [5] =
      Except.ok ⟨none, false, none, ["Some message handlers were not defined!"]⟩ :=
  ⟨(frame_category_dispatch [0] 0 [] (by decide)).1 rfl,
   (frame_category_dispatch [1] 1 [] (by decide)).2.1 rfl,
   (frame_category_dispatch [100] 100 [] (by decide)).2.2.1 rfl,
   (frame_category_dispatch [5] 5 [] (by decide)).2.2.2
     (by decide) (by decide) (by decide)⟩

/-- C5: when the url does not match `/^\/realtime\/(.+)$/` (for instance
`/realtime/` with an empty locator), `handleConnection` closes the
connection and performs no user lookup, no note lookup, no authorization
check and no registration. -/
theorem invalid_path_rejected_without_lookup
    (env : GatewayEnv) (st : NoteClientMap) (client : Client) (url : String)
    (h : realtimePathMatch url = none) :
    handleConnection env st client url = ⟨true, st, [], [], none, []⟩ := by
  simp [handleConnection, h]

/-- C5 witness: the empty-locator path `/realtime/` is rejected even with
an always-granting permission collaborator. -/
theorem invalid_path_rejected_without_lookup_witness :
    handleConnection envGrantAbc emptyMap 1 "/realtime/" =
      ⟨true, emptyMap, [], [], none, []⟩ :=
  invalid_path_rejected_without_lookup envGrantAbc emptyMap 1 "/realtime/"
    (by decide)

/-- C6: when the note lookup throws — either `NotInDBError` or
`ForbiddenIdError` — `handleConnection` closes the connection, sends no
protocol-level frame and adds no entry to the note-client registry. -/
theorem note_lookup_failure_closes_silently
    (env : GatewayEnv) (st : NoteClientMap) (client : Client) (url : String)
    (noteIdFromPath : String) (e : NoteError)
    (hpath : realtimePathMatch url = some noteIdFromPath)
    (hnote : getNoteByIdOrAlias env noteIdFromPath = Except.error e) :
    handleConnection env st client url =
      ⟨true, st, ["hardcoded"], [noteIdFromPath], none, []⟩ := by
  simp [handleConnection, hpath, hnote]

/-- C6 witness: the locator `missing` fails with `NotInDBError` and the
locator `evil` fails with `ForbiddenIdError`; both close the connection
with no registration and no frame sent. -/
theorem note_lookup_failure_closes_silently_witness :
    handleConnection envGrantAbc emptyMap 1 "/realtime/missing" =
      ⟨true, emptyMap, ["hardcoded"], ["missing"], none, []⟩
    ∧ handleConnection envGrantAbc emptyMap 1 "/realtime/evil" =
      ⟨true, emptyMap, ["hardcoded"], ["evil"], none, []⟩ :=
  ⟨note_lookup_failure_closes_silently envGrantAbc emptyMap 1
      "/realtime/missing" "missing" (NoteError.notInDB "missing")
      (by decide) rfl,
   note_lookup_failure_closes_silently envGrantAbc emptyMap 1
      "/realtime/evil" "evil" (NoteError.forbiddenId "evil")
      (by decide) rfl⟩

/-- C7: `handleDisconnect` of a client absent from the note-client
registry is a no-op: the registry is returned unchanged, nothing is
flushed or evicted, and no error is raised (the function is total). -/
theorem disconnect_unattached_noop (st : NoteClientMap) (client : Client)
    (h : st.getNoteIdByClient client = none) :
    handleDisconnect st client = ⟨st, [], []⟩ := by
  simp [handleDisconnect, h]

/-- C7 witness: disconnecting never-attached client 1 leaves a registry
holding only client 2 untouched. -/
theorem disconnect_unattached_noop_witness :
    handleDisconnect ⟨[(2, "abc")]⟩ 1 = ⟨⟨[(2, "abc")]⟩, [], []⟩ :=
  disconnect_unattached_noop ⟨[(2, "abc")]⟩ 1 (by decide)

/-- C8 counterexample: a callback rejection is caught by the dispatcher's
`.catch`, but the claim's "and logged" part is false: the dispatcher's log
output is empty — the error is swallowed by the empty catch body. -/
theorem handler_failure_not_logged_cex :
    dispatchFrame failingSyncHandlers [0] =
      Except.ok ⟨some "messageSync", false, some "boom", []⟩ := rfl

/-- C8 (amended): a failing handler callback is caught at the per-frame
dispatch boundary — `dispatchFrame` returns normally, so the failure
cannot escape or affect other connections — but the rejection handler has
an empty body, so the error is swallowed without being logged. -/
theorem handler_failure_swallowed_at_dispatch
    (handlers : List MessageHandler) (data : List Nat) (v : Nat)
    (rest : List Nat) (h : MessageHandler) (e : String)
    (hdec : readVarUint data = some (v, rest))
    (hfind : handlers.find? (fun hh => messageTypeMap v == some hh.message) =
      some h)
    (herr : h.callback data = Except.error e) :
    dispatchFrame handlers data =
      Except.ok ⟨some h.message, false, some e, []⟩ := by
  unfold dispatchFrame
  rw [hdec]
  simp only [hfind, herr]

/-- C8 witness: a frame of type 0 with a payload byte, handled by a
rejecting callback, is caught with empty dispatcher logs. -/
theorem handler_failure_swallowed_at_dispatch_witness :
    dispatchFrame failingSyncHandlers [0, 7] =
      Except.ok ⟨some "messageSync", false, some "boom", []⟩ :=
  handler_failure_swallowed_at_dispatch failingSyncHandlers [0, 7] 0 [7]
    ⟨"messageSync", fun _ => Except.error "boom"⟩ "boom" (by decide) rfl rfl

/-- C9: admission is client-independent: for the same url, registry and
collaborators, two different clients get identical close/admit decisions,
identical user and note lookups and an identical authorization subject;
moreover every username ever looked up is the constant `'hardcoded'` and
the user handed to `mayRead` is exactly the result of that lookup. -/
theorem admission_identity_client_independent
    (env : GatewayEnv) (st : NoteClientMap) (url : String) (c1 c2 : Client) :
    ((handleConnection env st c1 url).closed =
      (handleConnection env st c2 url).closed)
    ∧ ((handleConnection env st c1 url).userLookups =
      (handleConnection env st c2 url).userLookups)
    ∧ ((handleConnection env st c1 url).noteLookups =
      (handleConnection env st c2 url).noteLookups)
    ∧ ((handleConnection env st c1 url).authzUser =
      (handleConnection env st c2 url).authzUser)
    ∧ ((handleConnection env st c1 url).userLookups.all
        (fun s => s == "hardcoded") = true)
    ∧ ((handleConnection env st c1 url).authzUser.all
        (fun u => u == env.getUserByUsername "hardcoded") = true) := by
  rcases hp : realtimePathMatch url with _ | nid
  · simp [handleConnection, hp]
  · rcases hn : getNoteByIdOrAlias env nid with e | note
    · simp [handleConnection, hp, hn]
    · rcases hm : env.mayRead (env.getUserByUsername "hardcoded") note
      · simp [handleConnection, hp, hn, hm]
      · simp [handleConnection, hp, hn, hm]

/-- C10 counterexample: the path `/realtime/a\nb` has a non-empty locator
`a\nb`, yet admission parsing fails (JS `.` does not match a line feed),
the connection is closed and no locator at all reaches the note lookup —
refuting the claim for arbitrary non-empty locator strings. -/
theorem locator_newline_rejected_cex :
    realtimePathMatch "/realtime/a\nb" = none
    ∧ handleConnection envGrantAbc emptyMap 1 "/realtime/a\nb" =
      ⟨true, emptyMap, [], [], none, []⟩ := by decide

/-- C10 (amended): for every non-empty locator made of characters that are
not JS line terminators — in particular locators containing `/` — the
admission pattern matches and the entire remainder is passed verbatim as
the single locator to the note lookup. -/
theorem locator_passed_verbatim
    (env : GatewayEnv) (st : NoteClientMap) (client : Client) (s : List Char)
    (hne : s ≠ [])
    (hnl : s.all (fun c => !(isLineTerminator c)) = true) :
    realtimePathMatch (String.mk ("/realtime/".data ++ s)) = some (String.mk s)
    ∧ (handleConnection env st client
        (String.mk ("/realtime/".data ++ s))).noteLookups = [String.mk s] := by
  have htake : ("/realtime/".data ++ s).take 10 = "/realtime/".data :=
    List.take_left' rfl
  have hdrop : ("/realtime/".data ++ s).drop 10 = s :=
    List.drop_left' rfl
  have hmatch : realtimePathMatch (String.mk ("/realtime/".data ++ s)) =
      some (String.mk s) := by
    unfold realtimePathMatch
    simp only [htake, hdrop]
    simp [hne, hnl]
  refine ⟨hmatch, ?_⟩
  unfold handleConnection
  rw [hmatch]
  rcases hn : getNoteByIdOrAlias env (String.mk s) with e | note
  · simp [hn]
  · rcases hm : env.mayRead (env.getUserByUsername "hardcoded") note
    · simp [hn, hm]
    · simp [hn, hm]

/-- C10 witness: the locator `a/b`, containing a slash, matches and is
passed verbatim to the note lookup. -/
theorem locator_passed_verbatim_witness :
    realtimePathMatch (String.mk ("/realtime/".data ++ "a/b".data)) =
      some (String.mk "a/b".data)
    ∧ (handleConnection envGrantAbc emptyMap 1
        (String.mk ("/realtime/".data ++ "a/b".data))).noteLookups =
      [String.mk "a/b".data] :=
  locator_passed_verbatim envGrantAbc emptyMap 1 "a/b".data
    (by decide) (by decide)

end HedgeDoc
